import Mathlib

/-!
Shallow embedding, in Lean 4, of the "transcripts-project" earnings-call
transcript cleaner (an Express server `src/server.ts` plus a browser client
`public/script.js`).

JavaScript strings are modelled at the Unicode code-point level as `List Char`
(wrapped in `String` at the API surface).  JavaScript string operations used by
the code (`trim`, `split`, `includes`, `replace` with anchored patterns,
truthiness of strings and of optional fields) are translated one by one below.

The two large unanchored regular expressions of `preprocessMissingLabels` are
embedded through a small backtracking matcher (`RE` / `matchRE`) whose
list-of-successes semantics follows ECMAScript priority order: an alternation
prefers its left branch, a greedy quantifier prefers more iterations, a lazy
quantifier prefers fewer, a quantifier iteration must consume input, and
`exec` with the `g` flag repeatedly finds the leftmost match starting at
`lastIndex`.  The pattern terms `handoffPattern` and `analystPattern` below
mirror the two regex literals of the source token by token.  Simple patterns
that are anchored with `^` or `$` (the code-fence strips, the
`[Corrected transcript]` placeholder strip, the `**bold**` rewrite and the
speaker-label guard) are translated directly into recursive functions.

All definitions are structurally recursive, so that the kernel can evaluate
them on concrete witnesses.
-/

namespace TranscriptsProject

/-! ## JavaScript character and string primitives -/

/-- The ECMAScript `\s` character class (WhiteSpace ∪ LineTerminator):
space, tab, LF, VT, FF, CR, NBSP, and the Unicode space separators,
line/paragraph separators and BOM. -/
def jsWhitespace (c : Char) : Bool :=
  c == ' ' || c == '\t' || c == '\n' || c == '\x0b' || c == '\x0c' ||
  c == '\r' || c.toNat == 0xa0 || c.toNat == 0x1680 ||
  (0x2000 ≤ c.toNat && c.toNat ≤ 0x200a) ||
  c.toNat == 0x2028 || c.toNat == 0x2029 || c.toNat == 0x202f ||
  c.toNat == 0x205f || c.toNat == 0x3000 || c.toNat == 0xfeff

/-- Case-insensitive comparison of an input character `c` against an ASCII
pattern character `pc`, as ECMAScript canonicalisation does for the `i` flag
(a non-ASCII input never canonicalises onto an ASCII pattern character). -/
def ciCharEq (pc c : Char) : Bool :=
  c == pc ||
  (('a' ≤ pc && pc ≤ 'z') && c.toNat == pc.toNat - 32) ||
  (('A' ≤ pc && pc ≤ 'Z') && c.toNat == pc.toNat + 32)

/-- Test whether `s` starts with the literal prefix `p` (case-sensitive). -/
def hasPfxL : List Char → List Char → Bool
  | [], _ => true
  | _ :: _, [] => false
  | p :: ps, c :: cs => p == c && hasPfxL ps cs

/-- Test whether `s` starts with the ASCII pattern `p`, compared
case-insensitively. -/
def ciHasPfxL : List Char → List Char → Bool
  | [], _ => true
  | _ :: _, [] => false
  | p :: ps, c :: cs => ciCharEq p c && ciHasPfxL ps cs

/-- JavaScript `String.prototype.trim`: strip `\s` characters at both ends. -/
def jsTrimL (s : List Char) : List Char :=
  ((s.dropWhile jsWhitespace).reverse.dropWhile jsWhitespace).reverse

/-- JavaScript `String.prototype.includes` for a needle `sub`. -/
def jsIncludesL (sub : List Char) : List Char → Bool
  | [] => hasPfxL sub []
  | c :: rest => hasPfxL sub (c :: rest) || jsIncludesL sub rest

/-- The part of `s` strictly before the first occurrence of `sep`
(all of `s` when `sep` does not occur). -/
def beforeFirstL (sep : List Char) : List Char → List Char
  | [] => []
  | c :: rest =>
      if hasPfxL sep (c :: rest) then []
      else c :: beforeFirstL sep rest

/-- The part of `s` strictly after the first occurrence of `sep`
(`[]` when `sep` does not occur). -/
def afterFirstL (sep : List Char) : List Char → List Char
  | [] => []
  | c :: rest =>
      if hasPfxL sep (c :: rest) then (c :: rest).drop sep.length
      else afterFirstL sep rest

/-- Fuel-driven worker for JavaScript `String.prototype.split` with a
non-empty separator: the segments between consecutive occurrences of `sep`,
scanning from the left.  Any `fuel > s.length` is enough, since each step
removes at least one character. -/
def jsSplitFuel : Nat → List Char → List Char → List (List Char)
  | 0, _, s => [s]
  | fuel + 1, sep, s =>
      if jsIncludesL sep s && !sep.isEmpty then
        beforeFirstL sep s :: jsSplitFuel fuel sep (afterFirstL sep s)
      else [s]

/-- JavaScript `String.prototype.split` with a non-empty separator. -/
def jsSplitL (sep s : List Char) : List (List Char) :=
  jsSplitFuel (s.length + 1) sep s

/-! ## A small backtracking regex matcher (list-of-successes semantics)

`matchRE re rem caps` returns every way `re` can match a prefix of `rem`,
as pairs of (rest of the input, captures), ordered by ECMAScript backtracking
priority.  The head of the list is the match the JavaScript engine commits to.
Captures are stored as an association list from group number to the captured
characters; a group recorded later in the match shadows an earlier record,
as in ECMAScript. -/

/-- Abstract syntax of the regex fragment used by `server.ts`: character
classes, concatenation, prioritised alternation, greedy/lazy option and star,
capture groups, zero-width lookahead and the `$` anchor.  Counted repetition
`{0,n}?` is expanded into nested lazy options by `repUptoLazy`. -/
inductive RE : Type where
  | eps : RE
  | cls : (Char → Bool) → RE
  | seq : RE → RE → RE
  | alt : RE → RE → RE
  | grp : Nat → RE → RE
  | opt : Bool → RE → RE
  | star : Bool → RE → RE
  | look : RE → RE
  | eos : RE

/-- Captured groups: group number ↦ captured characters (latest first). -/
abbrev Caps := List (Nat × List Char)

/-- Kleene-star loop.  `body` matches one iteration; an iteration that
consumes nothing ends the loop (ECMAScript forbids empty quantifier
iterations).  The boolean selects lazy (prefer exit) versus greedy
(prefer another iteration).  `fuel` bounds the number of iterations;
`rem.length + 1` is always enough because every iteration consumes. -/
def starRun (body : List Char → Caps → List (List Char × Caps)) (lazy : Bool) :
    Nat → List Char → Caps → List (List Char × Caps)
  | 0, rem, caps => [(rem, caps)]
  | fuel + 1, rem, caps =>
      let deeper := (body rem caps).flatMap fun rc =>
        if rc.1.length == rem.length then []
        else starRun body lazy fuel rc.1 rc.2
      if lazy then (rem, caps) :: deeper else deeper ++ [(rem, caps)]

/-- All matches of `re` against a prefix of `rem`, in backtracking order. -/
def matchRE : RE → List Char → Caps → List (List Char × Caps)
  | .eps, rem, caps => [(rem, caps)]
  | .cls p, rem, caps =>
      match rem with
      | [] => []
      | c :: rest => if p c then [(rest, caps)] else []
  | .seq a b, rem, caps =>
      (matchRE a rem caps).flatMap fun rc => matchRE b rc.1 rc.2
  | .alt a b, rem, caps => matchRE a rem caps ++ matchRE b rem caps
  | .grp i r, rem, caps =>
      (matchRE r rem caps).map fun rc =>
        (rc.1, (i, rem.take (rem.length - rc.1.length)) :: rc.2)
  | .opt lazy r, rem, caps =>
      if lazy then (rem, caps) :: matchRE r rem caps
      else matchRE r rem caps ++ [(rem, caps)]
  | .star lazy r, rem, caps => starRun (matchRE r) lazy (rem.length + 1) rem caps
  | .look r, rem, caps =>
      match matchRE r rem caps with
      | [] => []
      | rc :: _ => [(rem, rc.2)]
  | .eos, rem, caps => if rem.isEmpty then [(rem, caps)] else []

/-- One regex match: its start index in the subject, the length of the
matched text (`match[0].length`) and its captures. -/
structure REMatch where
  index : Nat
  len : Nat
  caps : Caps
deriving DecidableEq, Repr

/-- The leftmost match of `re` in the suffix `rem` of the subject, where
`rem` begins at absolute index `idx`; this is `RegExp.prototype.exec`
starting its scan at `idx`. -/
def searchFrom (re : RE) : List Char → Nat → Option REMatch
  | rem, idx =>
      match (matchRE re rem []).head? with
      | some rc => some ⟨idx, rem.length - rc.1.length, rc.2⟩
      | none =>
          match rem with
          | [] => none
          | _ :: t => searchFrom re t (idx + 1)

/-- The matches found by a `while ((m = re.exec(s)) !== null)` loop over a
`g`-flagged regex: repeated leftmost search, resuming at the end of the
previous match (stepping one past an empty match).  `fuel` bounds the number
of matches; `s.length + 2` is always enough. -/
def execAllFuel (re : RE) (s : List Char) : Nat → Nat → List REMatch
  | 0, _ => []
  | fuel + 1, start =>
      if start > s.length then []
      else
        match searchFrom re (s.drop start) start with
        | none => []
        | some m =>
            let next := if m.len == 0 then m.index + 1 else m.index + m.len
            m :: execAllFuel re s fuel next

/-- All matches of the `g`-flagged regex `re` over subject `s`. -/
def execAll (re : RE) (s : List Char) : List REMatch :=
  execAllFuel re s (s.length + 2) 0

/-- Lookup of `m[i]` for a capture group `i`: the latest recorded capture,
or `[]`. -/
def capLookup (caps : Caps) (i : Nat) : List Char :=
  match caps.find? (fun p => p.1 == i) with
  | some p => p.2
  | none => []

/-! ### Pattern construction helpers -/

/-- A single pattern character under the `i` flag. -/
def lit1 (c : Char) : RE := .cls (ciCharEq c)

/-- A literal pattern word under the `i` flag. -/
def lits (w : String) : RE := w.data.foldr (fun c r => .seq (lit1 c) r) .eps

/-- Concatenation of a list of patterns. -/
def seqList (rs : List RE) : RE := rs.foldr .seq .eps

/-- Pattern `\s*` (greedy). -/
def wsStar : RE := .star false (.cls jsWhitespace)

/-- Pattern `\s+` (greedy). -/
def wsPlus : RE := .seq (.cls jsWhitespace) wsStar

/-- Pattern `[\s\S]` — any character. -/
def anyCls : RE := .cls fun _ => true

/-- Pattern `[A-Z]` under the `i` flag — any ASCII letter. -/
def alphaCls : RE := .cls fun c =>
  ('A' ≤ c && c ≤ 'Z') || ('a' ≤ c && c ≤ 'z')

/-- Pattern `x{0,n}?` — at most `n` copies of `x`, lazily, as nested lazy
options. -/
def repUptoLazy (r : RE) : Nat → RE
  | 0 => .eps
  | n + 1 => .opt true (.seq r (repUptoLazy r n))

/-- A lazy `x+?`: one copy of `x` followed by a lazy star. -/
def plusLazy (r : RE) : RE := .seq r (.star true r)

/-! ## The `preprocessMissingLabels` patterns (`server.ts` 258–318) -/

/-- Pattern `[^\.\,\n]` — the class used for the introduced person/company
name. -/
def nameCls : RE := .cls fun c => !(c == '.' || c == ',' || c == '\n')

/-- Pattern `((?:<strong>)?Operator(?:<\/strong>)?|OPERATOR\(\))` under the `i`
flag — capture group 1 of both patterns. -/
def operatorGrp : RE :=
  .grp 1 (.alt
    (seqList [.opt false (lits "<strong>"), lits "Operator",
              .opt false (lits "</strong>")])
    (lits "OPERATOR()"))

/-- Pattern `\s*\n\s*0?\s*\n` — the blank/zero line after the operator
label. -/
def operatorSep : RE :=
  seqList [wsStar, lit1 '\n', wsStar, .opt false (lit1 '0'), wsStar, lit1 '\n']

/-- Pattern `(?=\n\s*<strong>|\n\s*[A-Z][A-Z]+\(\)|$)` — the lookahead ending
group 4; under the `i` flag `[A-Z]` also matches lowercase letters. -/
def labelLookahead : RE :=
  .look (.alt
    (seqList [lit1 '\n', wsStar, lits "<strong>"])
    (.alt
      (seqList [lit1 '\n', wsStar, alphaCls, alphaCls, .star false alphaCls,
                lits "()"])
      .eos))

/-- The executive hand-off regex of `preprocessMissingLabels`:

`((?:<strong>)?Operator(?:<\/strong>)?|OPERATOR\(\))\s*\n\s*0?\s*\n([\s\S]*?)(?:turn\s+the\s+call\s+over\s+to|I will now turn the call over to|I will turn the call over to)\s+([^\.\,\n]+?)(?:\.|,)\s*(?:Please\s+go\s+ahead|Please\s+proceed|Go\s+ahead)(?:\s+Sir)?(?:\.)?\s*\n\s*\n([\s\S]{0,200}?)(?=\n\s*<strong>|\n\s*[A-Z][A-Z]+\(\)|$)`
with flags `gi`. -/
def handoffPattern : RE :=
  seqList
    [operatorGrp, operatorSep,
     .grp 2 (.star true anyCls),
     .alt (seqList [lits "turn", wsPlus, lits "the", wsPlus, lits "call",
                    wsPlus, lits "over", wsPlus, lits "to"])
       (.alt (lits "I will now turn the call over to")
             (lits "I will turn the call over to")),
     wsPlus,
     .grp 3 (plusLazy nameCls),
     .alt (lit1 '.') (lit1 ','),
     wsStar,
     .alt (seqList [lits "Please", wsPlus, lits "go", wsPlus, lits "ahead"])
       (.alt (seqList [lits "Please", wsPlus, lits "proceed"])
             (seqList [lits "Go", wsPlus, lits "ahead"])),
     .opt false (.seq wsPlus (lits "Sir")),
     .opt false (lit1 '.'),
     wsStar, lit1 '\n', wsStar, lit1 '\n',
     .grp 4 (repUptoLazy anyCls 200),
     labelLookahead]

/-- The analyst introduction regex of `preprocessMissingLabels`:

`((?:<strong>)?Operator(?:<\/strong>)?|OPERATOR\(\))\s*\n\s*0?\s*\n([\s\S]*?)(?:Our\s+next\s+question\s+is\s+from|question\s+from)\s+[^,]+?\s+(?:with|from)\s+([^\.\,\n]+?)(?:\.|,)\s*(?:Please\s+proceed|Please\s+go\s+ahead|Go\s+ahead)(?:\.)?\s*\n\s*\n([\s\S]{0,200}?)(?=\n\s*<strong>|\n\s*[A-Z][A-Z]+\(\)|$)`
with flags `gi`. -/
def analystPattern : RE :=
  seqList
    [operatorGrp, operatorSep,
     .grp 2 (.star true anyCls),
     .alt (seqList [lits "Our", wsPlus, lits "next", wsPlus, lits "question",
                    wsPlus, lits "is", wsPlus, lits "from"])
       (seqList [lits "question", wsPlus, lits "from"]),
     wsPlus,
     plusLazy (.cls fun c => !(c == ',')),
     wsPlus,
     .alt (lits "with") (lits "from"),
     wsPlus,
     .grp 3 (plusLazy nameCls),
     .alt (lit1 '.') (lit1 ','),
     wsStar,
     .alt (seqList [lits "Please", wsPlus, lits "proceed"])
       (.alt (seqList [lits "Please", wsPlus, lits "go", wsPlus, lits "ahead"])
             (seqList [lits "Go", wsPlus, lits "ahead"])),
     .opt false (lit1 '.'),
     wsStar, lit1 '\n', wsStar, lit1 '\n',
     .grp 4 (repUptoLazy anyCls 200),
     labelLookahead]

/-- The title regex `(CEO|CFO|Chief\s+Executive\s+Officer|Chief\s+Financial\s+Officer|President|Chairman|founder)` with flag `i`. -/
def titleRE : RE :=
  .alt (lits "CEO")
    (.alt (lits "CFO")
      (.alt (seqList [lits "Chief", wsPlus, lits "Executive", wsPlus,
                      lits "Officer"])
        (.alt (seqList [lits "Chief", wsPlus, lits "Financial", wsPlus,
                        lits "Officer"])
          (.alt (lits "President")
            (.alt (lits "Chairman") (lits "founder"))))))

/-- Embedding of `operatorText.match(titleRegex)` — the text of the first (leftmost)
match of `titleRE` in `s`, or `none`. -/
def titleSearch (s : List Char) : Option (List Char) :=
  match searchFrom titleRE s 0 with
  | some m => some ((s.drop m.index).take m.len)
  | none => none

/-- The guard `nextText.match(/^\s*<strong>|^\s*[A-Z][A-Z]+\(\)/)` tested on
an already trimmed string (no `i` flag here, so `[A-Z]` is uppercase only).
Because the pattern is anchored and `<` , `A`–`Z` and `(` are not `\s`
characters, the greedy `\s*` necessarily consumes exactly the leading
whitespace run, and `[A-Z][A-Z]+` followed by `\(` necessarily consumes
exactly the maximal uppercase run (of length ≥ 2). -/
def beginsWithSpeakerLabel (s : List Char) : Bool :=
  let t := s.dropWhile jsWhitespace
  hasPfxL "<strong>".data t ||
    (let run := t.takeWhile fun c => 'A' ≤ c && c ≤ 'Z'
     decide (2 ≤ run.length) && hasPfxL "()".data (t.drop run.length))

/-! ## `preprocessMissingLabels` itself -/

/-- One raw match of `handoffPattern`/`analystPattern`, with the capture
groups the code reads: `match.index`, `match[0].length`, `match[2]`
(the operator's text), `match[3]` (person or company name) and `match[4]`
(the text after the hand-off). -/
structure HMatch where
  index : Nat
  len : Nat
  g2 : List Char
  g3 : List Char
  g4 : List Char
deriving DecidableEq, Repr

/-- Read the fields used by the code out of a raw engine match. -/
def toHMatch (m : REMatch) : HMatch :=
  ⟨m.index, m.len, capLookup m.caps 2, capLookup m.caps 3, capLookup m.caps 4⟩

/-- All matches of the executive hand-off pattern over `s`. -/
def handoffRawMatches (s : List Char) : List HMatch :=
  (execAll handoffPattern s).map toHMatch

/-- All matches of the analyst introduction pattern over `s`. -/
def analystRawMatches (s : List Char) : List HMatch :=
  (execAll analystPattern s).map toHMatch

/-- An element of the `matches` array of `preprocessMissingLabels`:
`{ index, name, title, insertPos }`. -/
structure ExecEntry where
  index : Nat
  name : List Char
  title : List Char
  insertPos : Nat
deriving DecidableEq, Repr

/-- The body of the first `while` loop: keep a match only when the trimmed
`match[4]` is truthy and does not already begin with a speaker label, and
record the trimmed name, the parenthesised title word found in the
operator's text (group 2), and the insertion position
`match.index + match[0].length - nextText.length`. -/
def mkExecEntry (r : HMatch) : Option ExecEntry :=
  let personName := jsTrimL r.g3
  let nextText := jsTrimL r.g4
  if !nextText.isEmpty && !beginsWithSpeakerLabel nextText then
    let title := match titleSearch r.g2 with
      | some w => " (".data ++ w ++ ")".data
      | none => []
    some ⟨r.index, personName, title, r.index + r.len - nextText.length⟩
  else none

/-- The `matches` array collected by the executive hand-off loop. -/
def handoffEntries (s : List Char) : List ExecEntry :=
  (handoffRawMatches s).filterMap mkExecEntry

/-- An element of the `analystMatches` array: `{ company, insertPos }`. -/
structure AnaEntry where
  company : List Char
  insertPos : Nat
deriving DecidableEq, Repr

/-- The body of the second `while` loop (same guard; group 3 is the
analyst's company). -/
def mkAnaEntry (r : HMatch) : Option AnaEntry :=
  let companyName := jsTrimL r.g3
  let nextText := jsTrimL r.g4
  if !nextText.isEmpty && !beginsWithSpeakerLabel nextText then
    some ⟨companyName, r.index + r.len - nextText.length⟩
  else none

/-- The `analystMatches` array collected by the analyst loop. -/
def analystEntries (s : List Char) : List AnaEntry :=
  (analystRawMatches s).filterMap mkAnaEntry

/-- Splice `processed.substring(0, pos) + label + processed.substring(pos)`. -/
def insertAt (s : List Char) (pos : Nat) (lbl : List Char) : List Char :=
  s.take pos ++ lbl ++ s.drop pos

/-- Embedding of `name.replace(/\s+/g, ' ')`: each run of `\s` becomes a
single space. -/
def collapseWs : List Char → List Char
  | [] => []
  | c :: t =>
      if jsWhitespace c then ' ' :: collapseWsSkip t else c :: collapseWs t
where
  /-- Worker that is inside a whitespace run. -/
  collapseWsSkip : List Char → List Char
  | [] => []
  | c :: t => if jsWhitespace c then collapseWsSkip t else c :: collapseWs t

/-- The `formattedName` of the insertion loop:
`m.name.replace(/\s+/g, ' ').trim()`. -/
def formattedNameOf (name : List Char) : List Char :=
  jsTrimL (collapseWs name)

/-- The label inserted for an executive hand-off:
`` `\n<strong>${formattedName}</strong>${m.title}\n\n` ``. -/
def execLabel (e : ExecEntry) : List Char :=
  "\n<strong>".data ++ formattedNameOf e.name ++ "</strong>".data ++
    e.title ++ "\n\n".data

/-- The change message pushed for an executive hand-off insertion. -/
def execChangeMsg (e : ExecEntry) : List Char :=
  "Added missing label for ".data ++ formattedNameOf e.name ++
    " after operator introduction".data

/-- Embedding of `matches.reverse().forEach(...)`: splice each executive label in,
last match first, collecting the change messages in that order. -/
def runExecInserts (s : List Char) (es : List ExecEntry) :
    List Char × List (List Char) :=
  es.reverse.foldl
    (fun acc e => (insertAt acc.1 e.insertPos (execLabel e),
                   acc.2 ++ [execChangeMsg e]))
    (s, [])

/-- The label inserted for an analyst introduction:
`` `\n<strong>${m.company} Analyst</strong>\n\n` ``. -/
def anaLabel (a : AnaEntry) : List Char :=
  "\n<strong>".data ++ a.company ++ " Analyst</strong>".data ++ "\n\n".data

/-- The change message pushed for an analyst insertion. -/
def anaChangeMsg (a : AnaEntry) : List Char :=
  "Added missing label for ".data ++ a.company ++
    " Analyst after operator introduction".data

/-- Embedding of `analystMatches.reverse().forEach(...)`. -/
def runAnaInserts (s : List Char) (as' : List AnaEntry) :
    List Char × List (List Char) :=
  as'.reverse.foldl
    (fun acc a => (insertAt acc.1 a.insertPos (anaLabel a),
                   acc.2 ++ [anaChangeMsg a]))
    (s, [])

/-- Phase one of `preprocessMissingLabels`: collect the executive hand-off
matches and splice their labels in. -/
def preprocessPhase1 (s : List Char) : List Char × List (List Char) :=
  runExecInserts s (handoffEntries s)

/-- Phase two of `preprocessMissingLabels`: collect the analyst introduction
matches over the already modified text and splice their labels in. -/
def preprocessPhase2 (s : List Char) : List Char × List (List Char) :=
  runAnaInserts s (analystEntries s)

/-- Embedding of `preprocessMissingLabels` (`server.ts` 258–318): run the executive
hand-off pass over the transcript, then the analyst pass over the already
modified text, returning the processed transcript and the accumulated
change messages. -/
def preprocessMissingLabels (transcript : String) : String × List String :=
  (⟨(preprocessPhase2 (preprocessPhase1 transcript.data).1).1⟩,
   ((preprocessPhase1 transcript.data).2 ++
    (preprocessPhase2 (preprocessPhase1 transcript.data).1).2).map fun l => ⟨l⟩)

/-! ## Response post-processing (`server.ts` 169–177, 464–481, 580–585) -/

/-- Embedding of `.replace(/^```html\s*/gi, '')` — with no `m` flag `^` anchors to the
start of the string, so at most the one leading occurrence is removed,
case-insensitively, together with the following whitespace run. -/
def stripLeadingHtmlFence (s : List Char) : List Char :=
  if ciHasPfxL "```html".data s then
    (s.drop "```html".data.length).dropWhile jsWhitespace
  else s

/-- Embedding of `.replace(/^```\s*/g, '')`. -/
def stripLeadingFence (s : List Char) : List Char :=
  if hasPfxL "```".data s then
    (s.drop "```".data.length).dropWhile jsWhitespace
  else s

/-- Embedding of `.replace(/\s*```$/g, '')` — with no `m` flag `$` anchors to the end of
the string; the leftmost match takes the maximal whitespace run before the
trailing fence. -/
def stripTrailingFence (s : List Char) : List Char :=
  if hasPfxL "```".data s.reverse then
    ((s.reverse.drop "```".data.length).dropWhile jsWhitespace).reverse
  else s

/-- The shared fence-stripping pipeline followed by `.trim()`. -/
def stripFences (s : List Char) : List Char :=
  jsTrimL (stripTrailingFence (stripLeadingFence (stripLeadingHtmlFence s)))

/-- Worker for `.replace(/\*\*([^*]+)\*\*/g, '<strong>$1</strong>')`:
scan left to right; at `**` take the maximal non-`*` run as the bold
content; if it is nonempty and followed by `**`, rewrite and continue after
the closing fence, otherwise emit one character and rescan.  Every step
consumes at least one character, so `fuel = s.length` is always enough;
at fuel 0 the remaining input is returned unchanged. -/
def convertBoldFuel : Nat → List Char → List Char
  | 0, s => s
  | _ + 1, [] => []
  | _ + 1, [c] => [c]
  | fuel + 1, c1 :: c2 :: rest =>
      if c1 == '*' && c2 == '*' then
        let content := rest.takeWhile fun c => !(c == '*')
        let after := rest.drop content.length
        if content.isEmpty then '*' :: convertBoldFuel fuel ('*' :: rest)
        else if hasPfxL "**".data after then
          "<strong>".data ++ content ++ "</strong>".data ++
            convertBoldFuel fuel (after.drop 2)
        else '*' :: convertBoldFuel fuel ('*' :: rest)
      else c1 :: convertBoldFuel fuel (c2 :: rest)

/-- Embedding of `.replace(/\*\*([^*]+)\*\*/g, '<strong>$1</strong>')`. -/
def convertBold (s : List Char) : List Char :=
  convertBoldFuel s.length s

/-- Whether the scan of `convertBoldFuel` finds any `**text**` occurrence
(same traversal, same fuel discipline). -/
def hasBoldFuel : Nat → List Char → Bool
  | 0, _ => false
  | _ + 1, [] => false
  | _ + 1, [_] => false
  | fuel + 1, c1 :: c2 :: rest =>
      if c1 == '*' && c2 == '*' then
        let content := rest.takeWhile fun c => !(c == '*')
        let after := rest.drop content.length
        if content.isEmpty then hasBoldFuel fuel ('*' :: rest)
        else if hasPfxL "**".data after then true
        else hasBoldFuel fuel ('*' :: rest)
      else hasBoldFuel fuel (c2 :: rest)

/-- Test whether `s` contains an occurrence of the pattern
`\*\*([^*]+)\*\*`. -/
def hasBoldMatch (s : List Char) : Bool :=
  hasBoldFuel s.length s

/-- Embedding of `.replace(/^\[Corrected transcript\]\s*/i, '')`
(`server.ts` 481). -/
def stripCorrectedPlaceholder (s : List Char) : List Char :=
  if ciHasPfxL "[Corrected transcript]".data s then
    (s.drop "[Corrected transcript]".data.length).dropWhile jsWhitespace
  else s

/-! ## The HTTP handlers (`server.ts` 36–618) -/

/-- A JSON value appearing in the handlers' response bodies. -/
inductive JVal : Type where
  | s : String → JVal
  | n : Nat → JVal
  | b : Bool → JVal
deriving DecidableEq, Repr

/-- A JSON response: HTTP status and the object's key/value pairs. -/
structure HttpResponse where
  status : Nat
  body : List (String × JVal)
deriving DecidableEq, Repr

/-- Field lookup in a response body. -/
def getField (r : HttpResponse) (k : String) : Option JVal :=
  match r.body.find? (fun p => p.1 == k) with
  | some p => some p.2
  | none => none

/-- One chat message sent to the provider. -/
structure ChatMsg where
  role : String
  content : String
deriving DecidableEq, Repr

/-- The provider's completion, as the handlers read it:
`completion.choices[0].message.content` (nullable) and
`completion.usage?.total_tokens` (absent when no usage is reported). -/
structure Completion where
  content : Option String
  usage : Option Nat
deriving DecidableEq, Repr

/-- Outcome of `openai.chat.completions.create`: a completion, or a thrown
error carrying an optional `message`. -/
inductive ProviderResult : Type where
  | ok : Completion → ProviderResult
  | thrown : Option String → ProviderResult

/-- The external provider, abstracted as a function from the messages sent
to an outcome. -/
abbrev Provider := List ChatMsg → ProviderResult

/-- JavaScript truthiness of an optional string field (`undefined`, `null`
and `''` are falsy). -/
def jsTruthyO : Option String → Bool
  | none => false
  | some s => s != ""

/-- Evaluation of `error.message || fallback` (an absent or empty message yields the
fallback). -/
def jsOrMsg : Option String → String → String
  | none, d => d
  | some s, d => if s == "" then d else s

/-- Evaluation of `completion.choices[0].message.content || ''`. -/
def jsOrEmpty : Option String → String
  | none => ""
  | some s => s

/-- Evaluation of `completion.usage?.total_tokens || 0`. -/
def jsUsage : Option Nat → Nat
  | none => 0
  | some n => n

/-- Response `res.status(400).json({ error: 'No transcript provided' })`. -/
def errNoTranscript : HttpResponse :=
  ⟨400, [("error", .s "No transcript provided")]⟩

/-- Response `res.status(500).json({ error: 'OpenAI API key not configured' })`. -/
def errNoKey : HttpResponse :=
  ⟨500, [("error", .s "OpenAI API key not configured")]⟩

/-! ## Prompt texts (verbatim from `server.ts`) -/

/-- The system prompt of `/api/process` (`server.ts` 51–149). -/
def processSystemPrompt : String :=
  "You are a transcript editor specialized in cleaning earnings call transcripts. \nYour ONLY job is to:\n1. Remove any standalone \"0\" numbers that appear after speaker labels\n2. Format speaker labels with HTML bold tags: <strong>Name</strong>\n3. Use COMPANY NAME ONLY for analysts (NO person names)\n4. Fix OBVIOUS analyst firm name misspellings (e.g., \"Truro Securities\" → \"Truist Securities\")\n5. Fix obvious formatting issues in speaker labels\n\nCRITICAL RULES:\n- DO NOT change, modify, or correct ANY of the actual spoken content/dialogue\n- DO NOT add, remove, or modify any words in the transcript body\n- Preserve all line breaks, spacing, and structure exactly as provided\n- Only fix OBVIOUS company misspellings (JP Morgon→JP Morgan, Goldman Sacks→Goldman Sachs, Truro→Truist)\n- DO NOT change executive/person names\n- Use HTML tags <strong></strong> NOT markdown ** for bold\n\nSPEAKER LABEL FORMATS (CRITICAL - FOLLOW EXACTLY):\n\nFor ANALYSTS (people from investment firms asking questions):\nWRONG: Jake Bartlett (Truro Securities Analyst)\nWRONG: Jake Bartlett (Equity Analyst at Truro Securities)  \nWRONG: <strong>Jake Bartlett</strong> (Truro Securities)\nRIGHT: <strong>Truro Securities Analyst</strong>\n\nPattern: Remove the person's name completely. Only use: <strong>[Company Name] Analyst</strong>\n\nMore examples:\n- \"Jeffrey Bernstein with Barclays\" → <strong>Barclays Analyst</strong>\n- \"Brian Vaccaro from Goldman Sachs\" → <strong>Goldman Sachs Analyst</strong>\n- \"Jake Bartlett(Equity Analyst at Truro Securities)\" → <strong>Truro Securities Analyst</strong>\n\nFor EXECUTIVES (company employees like CEO, CFO):\n- Keep the person's name + title\n- <strong>Rob Lynch</strong> (Chief Executive Officer)\n- <strong>Katie Fogarty</strong> (Chief Financial Officer)\n\nFor OPERATOR:\n- <strong>Operator</strong>\n\nCRITICAL: For analysts, DELETE the person's name entirely. Only keep company + \"Analyst\"\n\nANOTHER COMMON ERROR - Question/Answer transitions:\nWhen an analyst asks a question, the company executive's ANSWER often gets incorrectly labeled as the analyst still speaking.\n\nPattern to detect:\n- Analyst asks a question (ends with \"Thanks\" or a question mark)\n- Same speaker label continues BUT the content is clearly an ANSWER not a question\n- Look for: addressing the analyst by name (\"Brian?\", \"Great question\"), references to internal operations, \"we/our/I\" from company perspective\n\nExample Error:\n<strong>Brian Vaccaro</strong> (Raymond James)\n\nCan you elaborate on guest satisfaction metrics? Thanks.\n\nBrian? I had a call with Stephanie last night... [This is NOT Brian speaking - it's the CEO answering!]\n\nShould be fixed to:\n<strong>Brian Vaccaro</strong> (Raymond James)\n\nCan you elaborate on guest satisfaction metrics? Thanks.\n\n<strong>Rob Lynch</strong> (Chief Executive Officer)\n\nBrian? I had a call with Stephanie last night...\n\nIMPORTANT: Insert the appropriate company executive speaker label (CEO, CFO, etc.) when you detect an answer to an analyst's question that's incorrectly under the analyst's name.\n\nANOTHER COMMON ERROR - Missing analyst labels for follow-up questions:\nAfter an executive answers, the analyst often asks a follow-up question BUT the speaker label is missing.\n\nPattern to detect:\n- Executive finishes answering\n- Text continues with \"Great. And then...\" or \"Thanks. My follow-up is...\" or \"Understood...\"\n- This is the ANALYST asking another question\n- Use the company name that was recently introduced\n\nExample Error:\n<strong>Katie Fogarty</strong> (Chief Financial Officer)\n\n...without having to lean on a significant amount of price to offset the beef market.\n\nGreat. And then I had another question about the labor savings... [This is the analyst!]\n\nShould be fixed to:\n<strong>Katie Fogarty</strong> (Chief Financial Officer)\n\n...without having to lean on a significant amount of price to offset the beef market.\n\n<strong>Truist Securities Analyst</strong>\n\nGreat. And then I had another question about the labor savings...\n\n<strong>Rob Lynch</strong> (Chief Executive Officer)\n\nSo one of the big opportunity untapped opportunities is on equipment...\n\nIMPORTANT: For analyst follow-ups, insert <strong>Company Name Analyst</strong> label using the company from the operator's introduction.\n\nReturn ONLY the corrected transcript with no additional commentary or explanation."

/-- The fixed prefix of the `/api/process` user prompt, before the interpolated transcript. -/
def processUserPfx : String :=
  "Please review this earnings call transcript and correct only the speaker names and titles. Leave all spoken content unchanged.\n\nTranscript:\n"

/-- The system prompt of `/api/segment` (`server.ts` 210–218). -/
def segmentSystemPrompt : String :=
  "Add paragraph breaks to improve readability. \n\nRules:\n- DO NOT change any words\n- ONLY add line breaks at logical topic changes\n- Break every 3-5 sentences\n- Preserve all <strong> tags and formatting\n\nReturn the segmented transcript only."

/-- The fixed prefix of the `/api/segment` user prompt. -/
def segmentUserPfx : String :=
  "Add paragraph breaks to this transcript:\n\n"

/-- The system prompt of `/api/verify-speakers` (`server.ts` 345–438). -/
def verifySystemPrompt : String :=
  "You are a transcript editor fixing speaker attribution errors in earnings calls.\n\nCRITICAL ERROR #1 - Missing speaker label after operator introduction:\nWhen operator introduces someone (analyst or executive), the VERY NEXT text MUST have a speaker label. If there's no label, you MUST add one.\n\nExample ERROR (Missing Label):\n<strong>Operator</strong>\n\nI will now turn the call over to Dr. Tony Han. Please go ahead Sir.\n\nThank you. Hello everyone. Thank you for joining us today... [MISSING LABEL!]\n\nThis is WRONG because:\n- Operator introduced \"Dr. Tony Han\" and said \"Please go ahead Sir\"\n- The next text \"Thank you. Hello everyone...\" has NO speaker label\n- This text is clearly Dr. Tony Han speaking (greeting after being introduced)\n\nCORRECT to:\n<strong>Operator</strong>\n\nI will now turn the call over to Dr. Tony Han. Please go ahead Sir.\n\n<strong>Dr. Tony Han</strong> (Chief Executive Officer)\n\nThank you. Hello everyone. Thank you for joining us today...\n\nRULE: After ANY operator introduction ending with \"Please go ahead\", \"Please proceed\", or \"Go ahead\", the next text MUST have a speaker label. If missing, ADD the label for the person just introduced.\n\nCRITICAL ERROR #2 - Wrong speaker after operator introduction:\nWhen operator introduces an analyst, the VERY NEXT speaker MUST be that analyst, NOT a company executive.\n\nExample ERROR to fix:\n<strong>Operator</strong>\n\nOur next question is from Jeffrey Bernstein with Barclays. Please proceed.\n\n<strong>Rob Lynch</strong> (Chief Executive Officer)\n\nGreat, thank you. Just wanted to build on... [analyst's question continues]\n\nThis is WRONG because:\n- Operator introduced Jeffrey Bernstein with Barclays\n- But Rob Lynch (CEO) is labeled as speaking\n- \"Great, thank you. Just wanted to build on...\" is clearly the ANALYST asking a question, not the CEO\n\nCORRECT to:\n<strong>Operator</strong>\n\nOur next question is from Jeffrey Bernstein with Barclays. Please proceed.\n\n<strong>Barclays Analyst</strong>\n\nGreat, thank you. Just wanted to build on... [analyst's question]\n\n<strong>Rob Lynch</strong> (Chief Executive Officer)\n\nYeah, I mean our, you know, our product innovation... [CEO's answer]\n\nRULE: Person introduced by operator = next speaker. If you see an executive name there instead, DELETE it and insert the analyst's company label.\n\nCRITICAL ERROR #3 - Executive's answer under analyst's label:\nWhen analyst asks question, executive's answer often appears under analyst's name.\nLook for: executive addressing analyst by name, \"we/our\" company perspective.\n\nCRITICAL ERROR #4 - Missing analyst label for follow-ups:\nWhen executive finishes answering and text continues with \"Understood...\", \"Thanks...\", \"Great...\", \"Right...\" → This is analyst asking follow-up.\n\nHANDOFF PHRASES TO WATCH FOR:\n- \"Please go ahead\" / \"Please go ahead Sir\" / \"Please proceed\" / \"Go ahead\"\n- \"I will now turn the call over to [Name]\"\n- \"I will turn the call over to [Name]\"\n- \"turn the call over to [Name]\"\n- \"Our next question is from [Name]\"\n\nAfter ANY of these phrases, the next text MUST have a speaker label. If it's missing, ADD it.\n\nLABEL FORMAT:\n- Analysts: <strong>Company Analyst</strong> (extract company from operator introduction)\n- Executives: <strong>Person Name</strong> (Title) - extract title from operator introduction if mentioned\n\nRULES:\n- DO NOT change any words\n- ONLY add/fix speaker labels\n- Preserve all HTML formatting\n- If operator introduces someone and next text has no label, ADD the label\n\nOUTPUT FORMAT:\nReturn the corrected transcript text, then add:\n---CHANGES---\nThen list each fix you made, like:\n- Added missing label for \"Dr. Tony Han\" after operator introduced them\n- Changed \"Wrong Name\" to \"Correct Label\" after operator introduced them\n- Added \"Company Analyst\" label for follow-up question\nOR write: No errors found"

/-- The fixed prefix of the `/api/verify-speakers` user prompt. -/
def verifyUserPfx : String :=
  "Please verify and correct ONLY the speaker attributions in this transcript. Do not change any words or formatting.\n\nPay special attention to:\n1. Missing speaker labels after operator introductions (especially after \"Please go ahead\" or \"turn the call over to\")\n2. Wrong speaker labels after operator introductions\n3. Executive answers incorrectly under analyst labels\n4. Missing analyst labels for follow-up questions\n\nTranscript:\n"

/-- The system prompt of `/api/check-company-names` (`server.ts` 537–560). -/
def checkCompanySystemPrompt : String :=
  "You are a financial company name checker for earnings call transcripts.\n\nONLY correct analyst/investment firm names. Be conservative.\n\nFix these ONLY:\n- \"Truro Securities\" → \"Truist Securities\"\n- \"JP Morgon\" → \"JP Morgan\"\n- \"Goldman Sacks\" → \"Goldman Sachs\"\n- \"Morgan Stanley\" → \"Morgan Stanley\"\n- Clear misspellings of major banks/investment firms\n\nDO NOT change:\n- Executive names (Rob Lynch, Katie Fogarty, etc.)\n- Company names you're unsure about\n- Person names - NEVER touch these\n- Any content/dialogue\n\nLook for labels like: <strong>Truro Securities Analyst</strong>\nOnly fix the company name if it's obviously misspelled.\n\nRESPONSE FORMAT:\n[Corrected transcript]\n---CHANGES---\n[List company corrections, or write \"All company names correct\"]"

/-- The fixed prefix of the `/api/check-company-names` user prompt. -/
def checkCompanyUserPfx : String :=
  "Only fix OBVIOUS analyst firm name misspellings. Leave all person names and executive names unchanged.\n\nTranscript:\n"

/-- The messages array sent by `/api/process` for transcript `t`. -/
def processMessages (t : String) : List ChatMsg :=
  [⟨"system", processSystemPrompt⟩, ⟨"user", processUserPfx ++ t⟩]

/-- The messages array sent by `/api/segment` for transcript `t`. -/
def segmentMessages (t : String) : List ChatMsg :=
  [⟨"system", segmentSystemPrompt⟩, ⟨"user", segmentUserPfx ++ t⟩]

/-- The messages array sent by `/api/verify-speakers` for (preprocessed)
transcript `t`. -/
def verifyMessages (t : String) : List ChatMsg :=
  [⟨"system", verifySystemPrompt⟩, ⟨"user", verifyUserPfx ++ t⟩]

/-- The messages array sent by `/api/check-company-names` for transcript
`t`. -/
def checkCompanyMessages (t : String) : List ChatMsg :=
  [⟨"system", checkCompanySystemPrompt⟩, ⟨"user", checkCompanyUserPfx ++ t⟩]

/-- Handler of `POST /api/process` (`server.ts` 36–192).  Besides the HTTP
response it returns the list of provider calls made (each call is the
messages array sent), so that "the provider is not called" and "the provider
is called exactly once, with these messages" are expressible. -/
def processHandler (tr key : Option String) (provider : Provider) :
    HttpResponse × List (List ChatMsg) :=
  if !jsTruthyO tr then (errNoTranscript, [])
  else if !jsTruthyO key then (errNoKey, [])
  else
    let t := jsOrEmpty tr
    let msgs := processMessages t
    match provider msgs with
    | .thrown m =>
        (⟨500, [("error", .s (jsOrMsg m "Failed to process transcript"))]⟩,
         [msgs])
    | .ok c =>
        let cleaned :=
          convertBold (stripFences (jsOrEmpty c.content).data)
        (⟨200, [("success", .b true),
                ("cleaned_transcript", .s ⟨cleaned⟩),
                ("tokens_used", .n (jsUsage c.usage))]⟩,
         [msgs])

/-- Handler of `POST /api/segment` (`server.ts` 195–255). -/
def segmentHandler (tr key : Option String) (provider : Provider) :
    HttpResponse × List (List ChatMsg) :=
  if !jsTruthyO tr then (errNoTranscript, [])
  else if !jsTruthyO key then (errNoKey, [])
  else
    let t := jsOrEmpty tr
    let msgs := segmentMessages t
    match provider msgs with
    | .thrown m =>
        (⟨500, [("error", .s (jsOrMsg m "Failed to segment transcript"))]⟩,
         [msgs])
    | .ok c =>
        let segmented := stripFences (jsOrEmpty c.content).data
        (⟨200, [("success", .b true),
                ("segmented_transcript", .s ⟨segmented⟩),
                ("tokens_used", .n (jsUsage c.usage))]⟩,
         [msgs])

/-- The `---CHANGES---` marker. -/
def changesMarker : String := "---CHANGES---"

/-- Handler of `POST /api/verify-speakers` (`server.ts` 321–519): run
`preprocessMissingLabels` on the transcript, send the preprocessed text to
the provider, strip fences from the response, and split it on
`---CHANGES---` into the verified transcript (placeholder-stripped) and the
changes summary (combined with the preprocessor's change messages). -/
def verifySpeakersHandler (tr key : Option String) (provider : Provider) :
    HttpResponse × List (List ChatMsg) :=
  if !jsTruthyO tr then (errNoTranscript, [])
  else if !jsTruthyO key then (errNoKey, [])
  else
    let t0 := jsOrEmpty tr
    let pre := preprocessMissingLabels t0
    let preChanges := pre.2
    let msgs := verifyMessages pre.1
    match provider msgs with
    | .thrown m =>
        (⟨500, [("error", .s (jsOrMsg m "Failed to verify speakers"))]⟩,
         [msgs])
    | .ok c =>
        let full := stripFences (jsOrEmpty c.content).data
        let tok := jsUsage c.usage
        if jsIncludesL changesMarker.data full then
          let parts := jsSplitL changesMarker.data full
          let v0 := jsTrimL (parts.headD [])
          let changesText := jsTrimL (parts.getD 1 [])
          let v := stripCorrectedPlaceholder v0
          let cs : String :=
            if !changesText.isEmpty &&
               (⟨changesText⟩ : String) != "No speaker attribution errors found." &&
               (⟨changesText⟩ : String) != "No errors found" then
              if !preChanges.isEmpty then
                String.intercalate "; " preChanges ++ "; " ++ ⟨changesText⟩
              else ⟨changesText⟩
            else
              if !preChanges.isEmpty then String.intercalate "; " preChanges
              else "No speaker attribution errors found"
          (⟨200, [("success", .b true),
                  ("verified_transcript", .s ⟨v⟩),
                  ("tokens_used", .n tok),
                  ("changes_summary", .s cs)]⟩,
           [msgs])
        else
          let cs : String :=
            if !preChanges.isEmpty then String.intercalate "; " preChanges
            else "Verified speaker attributions and corrected any misplaced labels"
          (⟨200, [("success", .b true),
                  ("verified_transcript", .s ⟨full⟩),
                  ("tokens_used", .n tok),
                  ("changes_summary", .s cs)]⟩,
           [msgs])

/-- Handler of `POST /api/check-company-names` (`server.ts` 522–618). -/
def checkCompanyNamesHandler (tr key : Option String) (provider : Provider) :
    HttpResponse × List (List ChatMsg) :=
  if !jsTruthyO tr then (errNoTranscript, [])
  else if !jsTruthyO key then (errNoKey, [])
  else
    let t := jsOrEmpty tr
    let msgs := checkCompanyMessages t
    match provider msgs with
    | .thrown m =>
        (⟨500, [("error", .s (jsOrMsg m "Failed to check company names"))]⟩,
         [msgs])
    | .ok c =>
        let full := stripFences (jsOrEmpty c.content).data
        let tok := jsUsage c.usage
        if jsIncludesL changesMarker.data full then
          let parts := jsSplitL changesMarker.data full
          let corrected := jsTrimL (parts.headD [])
          let changesText := jsTrimL (parts.getD 1 [])
          let cs : String :=
            if !changesText.isEmpty &&
               (⟨changesText⟩ : String) != "All company names correct" then
              ⟨changesText⟩
            else "All company names correct"
          (⟨200, [("success", .b true),
                  ("corrected_transcript", .s ⟨corrected⟩),
                  ("tokens_used", .n tok),
                  ("changes_summary", .s cs)]⟩,
           [msgs])
        else
          (⟨200, [("success", .b true),
                  ("corrected_transcript", .s ⟨full⟩),
                  ("tokens_used", .n tok),
                  ("changes_summary", .s "Verified analyst firm names")]⟩,
           [msgs])

/-- The routes registered on the Express `app` in `server.ts`
(method, path).  There is no `app.get('/api/process/:jobId/status', ...)`
registration anywhere in the file. -/
def serverRoutes : List (String × String) :=
  [("GET", "/"),
   ("POST", "/api/process"),
   ("POST", "/api/segment"),
   ("POST", "/api/verify-speakers"),
   ("POST", "/api/check-company-names")]

/-- Whether a request would be dispatched to a registered route. -/
def routeExists (method path : String) : Bool :=
  serverRoutes.contains (method, path)

/-! ## The browser client (`public/script.js`) -/

/-- An HTTP request issued by a client pass. -/
structure ApiRequest where
  method : String
  path : String
  transcript : String
deriving DecidableEq, Repr

/-- The "Clean Transcript" pass (`script.js` 44–91):
`fetch('/api/process', { method: 'POST', body: { transcript } })`. -/
def processPassRequests (t : String) : List ApiRequest :=
  [⟨"POST", "/api/process", t⟩]

/-- The "Verify Speakers" pass (`script.js` 212–276). -/
def verifySpeakersPassRequests (t : String) : List ApiRequest :=
  [⟨"POST", "/api/verify-speakers", t⟩]

/-- The "Segment" pass (`script.js` 279–329). -/
def segmentPassRequests (t : String) : List ApiRequest :=
  [⟨"POST", "/api/segment", t⟩]

/-- The `topDisclaimerHTML` constant of the disclaimer click handler
(`script.js` 352). -/
def topDisclaimerHTML : String :=
  "<p><em>This transcript is brought to you by Benzinga APIs. For real-time access to our entire catalog, <a href=\"https://www.benzinga.com/apis/\">please visit Benzinga APIs</a> for a consultation.</em></p>\n\n"

/-- The `bottomDisclaimerHTML` constant of the disclaimer click handler
(`script.js` 353). -/
def bottomDisclaimerHTML : String :=
  "\n\n<p><em>This transcript is to be used for informational purposes only. Though Benzinga believes the content to be substantially and directionally correct, Benzinga cannot and does not guarantee 100% accuracy of the content herein. Audio quality, accents, and technical issues could impact the exactness and we advise you to refer to source audio files before making any decisions based upon the above.</em></p>"

/-- The "Add Disclaimers" pass (`script.js` 332–361): the click handler
performs no `fetch` at all; when the current transcript is nonempty and
disclaimers have not been added yet, it rewrites `cleanedTranscriptText`
locally to `topDisclaimerHTML + text + bottomDisclaimerHTML` and sets the
`hasDisclaimers` flag.  The first component lists the API requests issued
(always none). -/
def addDisclaimersPass (text : String) (hasDisclaimers : Bool) :
    List ApiRequest × String × Bool :=
  if text == "" then ([], text, hasDisclaimers)
  else if hasDisclaimers then ([], text, hasDisclaimers)
  else ([], topDisclaimerHTML ++ text ++ bottomDisclaimerHTML, true)

/-- The status-endpoint path template used by the client's polling loop:
`` fetch(`/api/process/${jobId}/status`) `` (`script.js` 104). -/
def jobStatusPath (jobId : String) : String :=
  "/api/process/" ++ jobId ++ "/status"

/-- The response fields the "Clean Transcript" click handler reads before it
starts polling: `data.job_id` and `data.total_chunks` (`script.js` 77–78). -/
def processClickReads : List String := ["job_id", "total_chunks"]

/-! ## The polling loop `pollJobStatus` (`script.js` 94–178) -/

/-- The job status reported by one poll response (`data.status`). -/
inductive JobStatus : Type where
  | completed : JobStatus
  | failed : Option String → JobStatus
  | processing : JobStatus
  | pending : JobStatus
  | other : JobStatus

/-- Whether a status ends the polling loop through its own branch. -/
def JobStatus.isTerminal : JobStatus → Bool
  | .completed => true
  | .failed _ => true
  | _ => false

/-- How the polling promise settles. -/
inductive PollOutcome : Type where
  | resolved : PollOutcome
  | rejectedFailed : PollOutcome
  | rejectedTimeout : PollOutcome
deriving DecidableEq, Repr

/-- Observable result of a polling run: how many status fetches were made,
how the promise settled, whether the progress UI was hidden, and the last
error message shown (if any). -/
structure PollResult where
  attempts : Nat
  outcome : PollOutcome
  progressHidden : Bool
  errorShown : Option String
deriving DecidableEq, Repr

/-- `const maxAttempts = 300` (`script.js` 95). -/
def pollMaxAttempts : Nat := 300

/-- The `setInterval` period in milliseconds (`script.js` 176). -/
def pollIntervalMs : Nat := 1000

/-- The timeout error message (`script.js` 170). -/
def pollTimeoutMsg : String := "Processing timed out. Please try again."

/-- One run of the `setInterval` callback chain, starting at attempt `idx`
with `fuel` ticks remaining.  Each tick increments the attempt counter,
handles the fetched status, and afterwards checks `attempts >= maxAttempts`
— so a `failed` (or even a `completed`) status on the 300th attempt still
triggers the timeout branch, whose `showError` overwrites the message shown.
The `fuel = 0` case is unreachable from `pollJobStatusRun` (the loop always
stops by attempt 300). -/
def pollAux (st : Nat → JobStatus) : Nat → Nat → PollResult
  | 0, idx => ⟨idx - 1, .rejectedTimeout, true, some pollTimeoutMsg⟩
  | fuel + 1, idx =>
      match st idx with
      | .completed =>
          ⟨idx, .resolved, true,
           if pollMaxAttempts ≤ idx then some pollTimeoutMsg else none⟩
      | .failed e =>
          ⟨idx, .rejectedFailed, true,
           if pollMaxAttempts ≤ idx then some pollTimeoutMsg
           else some ("Processing failed: " ++ jsOrMsg e "Unknown error")⟩
      | _ =>
          if pollMaxAttempts ≤ idx then
            ⟨idx, .rejectedTimeout, true, some pollTimeoutMsg⟩
          else pollAux st fuel (idx + 1)

/-- A full run of `pollJobStatus` against the stream of status responses
`st` (the response to the `i`-th fetch is `st i`, counting from 1). -/
def pollJobStatusRun (st : Nat → JobStatus) : PollResult :=
  pollAux st pollMaxAttempts 1

/-! ## Helper lemmas -/

/-- Splicing a label into a string keeps the original as a sublist. -/
theorem sublist_insertAt (s : List Char) (p : Nat) (l : List Char) :
    s.Sublist (insertAt s p l) := by
  have h : (s.drop p).Sublist (l ++ s.drop p) := List.sublist_append_right _ _
  have h2 := h.append_left (s.take p)
  simpa [insertAt, List.take_append_drop] using h2

/-- Worker form of the executive insertion pass: the accumulated string is
only ever extended by splices. -/
theorem foldExec_sublist (l : List ExecEntry) :
    ∀ (s : List Char) (cs : List (List Char)),
      s.Sublist (l.foldl
        (fun acc e => (insertAt acc.1 e.insertPos (execLabel e),
                       acc.2 ++ [execChangeMsg e])) (s, cs)).1 := by
  induction l with
  | nil => intro s cs; exact List.Sublist.refl s
  | cons e t ih =>
      intro s cs
      simp only [List.foldl_cons]
      exact (sublist_insertAt s e.insertPos (execLabel e)).trans (ih _ _)

/-- The executive insertion pass only inserts. -/
theorem runExecInserts_sublist (es : List ExecEntry) (s : List Char) :
    s.Sublist (runExecInserts s es).1 :=
  foldExec_sublist es.reverse s []

/-- Worker form of the analyst insertion pass. -/
theorem foldAna_sublist (l : List AnaEntry) :
    ∀ (s : List Char) (cs : List (List Char)),
      s.Sublist (l.foldl
        (fun acc a => (insertAt acc.1 a.insertPos (anaLabel a),
                       acc.2 ++ [anaChangeMsg a])) (s, cs)).1 := by
  induction l with
  | nil => intro s cs; exact List.Sublist.refl s
  | cons a t ih =>
      intro s cs
      simp only [List.foldl_cons]
      exact (sublist_insertAt s a.insertPos (anaLabel a)).trans (ih _ _)

/-- The analyst insertion pass only inserts. -/
theorem runAnaInserts_sublist (as' : List AnaEntry) (s : List Char) :
    s.Sublist (runAnaInserts s as').1 :=
  foldAna_sublist as'.reverse s []

/-! ## Claim theorems -/

/-- The transcript returned by `preprocessMissingLabels`, unravelled. -/
theorem preprocessMissingLabels_fst (t : String) :
    (preprocessMissingLabels t).1.data =
      (preprocessPhase2 (preprocessPhase1 t.data).1).1 := by
  unfold preprocessMissingLabels
  dsimp only

/-- Inserting nothing leaves the string and the change list untouched. -/
theorem runExecInserts_nil (s : List Char) : runExecInserts s [] = (s, []) := rfl

/-- Inserting nothing leaves the string and the change list untouched. -/
theorem runAnaInserts_nil (s : List Char) : runAnaInserts s [] = (s, []) := rfl

/-- Phase one without matches is the identity. -/
theorem preprocessPhase1_nil {s : List Char} (h : handoffEntries s = []) :
    preprocessPhase1 s = (s, []) := by
  unfold preprocessPhase1; rw [h, runExecInserts_nil]

/-- Phase two without matches is the identity. -/
theorem preprocessPhase2_nil {s : List Char} (h : analystEntries s = []) :
    preprocessPhase2 s = (s, []) := by
  unfold preprocessPhase2; rw [h, runAnaInserts_nil]

/-- Phase one only inserts. -/
theorem preprocessPhase1_sublist (s : List Char) :
    s.Sublist (preprocessPhase1 s).1 :=
  runExecInserts_sublist _ _

/-- Phase two only inserts. -/
theorem preprocessPhase2_sublist (s : List Char) :
    s.Sublist (preprocessPhase2 s).1 :=
  runAnaInserts_sublist _ _

/-- C9.  For every input transcript, `preprocessMissingLabels` only inserts
label text: the input is a sublist (subsequence) of the output, existing
characters are never deleted or altered; and when neither hand-off pattern
produces an insertion (both entry lists are empty), the function returns the
input unchanged together with an empty changes list. -/
theorem C9_preprocess_only_inserts :
    (∀ t : String, t.data.Sublist (preprocessMissingLabels t).1.data) ∧
    (∀ t : String, handoffEntries t.data = [] → analystEntries t.data = [] →
      preprocessMissingLabels t = (t, [])) := by
  constructor
  · intro t
    rw [preprocessMissingLabels_fst]
    exact (preprocessPhase1_sublist t.data).trans (preprocessPhase2_sublist _)
  · intro t h1 h2
    unfold preprocessMissingLabels
    rw [preprocessPhase1_nil h1]
    dsimp only
    rw [preprocessPhase2_nil h2]
    dsimp only
    rfl

/-- Witness for `C9_preprocess_only_inserts` at the transcript `"hello"`,
on which neither pattern matches. -/
theorem C9_preprocess_only_inserts_witness :
    preprocessMissingLabels "hello" = ("hello", []) :=
  C9_preprocess_only_inserts.2 "hello" (by decide) (by decide)

/-- C10.  A body whose `transcript` field is the empty string is rejected
with 400 "No transcript provided" on all four endpoints (the check is on
JavaScript falsiness), without calling the provider; and the
missing-transcript check precedes the missing-API-key check: with both the
transcript and the `OPENAI_API_KEY` absent the response is still the 400,
not the 500. -/
theorem C10_falsy_transcript_precedence :
    (∀ (k : Option String) (p : Provider),
        processHandler (some "") k p = (errNoTranscript, []) ∧
        segmentHandler (some "") k p = (errNoTranscript, []) ∧
        verifySpeakersHandler (some "") k p = (errNoTranscript, []) ∧
        checkCompanyNamesHandler (some "") k p = (errNoTranscript, [])) ∧
    (∀ p : Provider,
        processHandler none none p = (errNoTranscript, []) ∧
        segmentHandler none none p = (errNoTranscript, []) ∧
        verifySpeakersHandler none none p = (errNoTranscript, []) ∧
        checkCompanyNamesHandler none none p = (errNoTranscript, [])) := by
  refine ⟨fun k p => ⟨?_, ?_, ?_, ?_⟩, fun p => ⟨?_, ?_, ?_, ?_⟩⟩ <;> rfl

/-- The attempt counter of a polling run never exceeds `idx + fuel - 1`. -/
theorem pollAux_attempts_le (st : Nat → JobStatus) :
    ∀ (fuel idx : Nat), (pollAux st fuel idx).attempts ≤ idx + fuel - 1 := by
  intro fuel
  induction fuel with
  | zero => intro idx; dsimp only [pollAux]; omega
  | succ fuel ih =>
      intro idx
      rcases h : st idx with _ | e | _ | _ | _ <;> simp only [pollAux, h]
      · omega
      · omega
      all_goals
        split
        · dsimp only; omega
        · exact (ih (idx + 1)).trans (by omega)

/-- When no terminal status is seen up to attempt 300, polling stops at
attempt 300 with the timeout outcome, progress hidden and the timeout
message shown. -/
theorem pollAux_timeout (st : Nat → JobStatus) :
    ∀ (fuel idx : Nat), idx + fuel = pollMaxAttempts + 1 → 1 ≤ idx →
      (∀ i, idx ≤ i → i ≤ pollMaxAttempts → (st i).isTerminal = false) →
      pollAux st fuel idx =
        ⟨pollMaxAttempts, .rejectedTimeout, true, some pollTimeoutMsg⟩ := by
  intro fuel
  induction fuel with
  | zero =>
      intro idx hsum _ _
      have hidx : idx = pollMaxAttempts + 1 := by omega
      dsimp only [pollAux]
      rw [hidx]
      rfl
  | succ fuel ih =>
      intro idx hsum hidx hterm
      have hle : idx ≤ pollMaxAttempts := by omega
      have ht := hterm idx le_rfl hle
      rcases h : st idx with _ | e | _ | _ | _
      · rw [h] at ht; simp [JobStatus.isTerminal] at ht
      · rw [h] at ht; simp [JobStatus.isTerminal] at ht
      all_goals
        simp only [pollAux, h]
        split
        · rename_i hge
          have heq : idx = pollMaxAttempts := le_antisymm hle hge
          rw [heq]
        · exact ih (idx + 1) (by omega) (by omega)
            (fun i h1 h2 => hterm i (by omega) h2)

/-- C5.  The browser's `pollJobStatus` loop polls at a fixed interval of
1000 milliseconds with an attempt ceiling of 300; for every stream of
status responses the number of attempts is at most 300; and when neither a
`completed` nor a `failed` status arrives within the ceiling the run stops
at attempt 300, hides the progress UI, rejects as timed out and reports the
timeout error message. -/
theorem C5_polling_bound :
    pollIntervalMs = 1000 ∧ pollMaxAttempts = 300 ∧
    (∀ st : Nat → JobStatus, (pollJobStatusRun st).attempts ≤ 300) ∧
    (∀ st : Nat → JobStatus,
      (∀ i, 1 ≤ i → i ≤ 300 → (st i).isTerminal = false) →
      pollJobStatusRun st =
        ⟨300, .rejectedTimeout, true, some pollTimeoutMsg⟩) := by
  refine ⟨rfl, rfl, ?_, ?_⟩
  · intro st
    have := pollAux_attempts_le st pollMaxAttempts 1
    simpa [pollJobStatusRun, pollMaxAttempts] using this
  · intro st hterm
    have := pollAux_timeout st pollMaxAttempts 1 rfl le_rfl
      (fun i h1 h2 => hterm i h1 h2)
    simpa [pollJobStatusRun, pollMaxAttempts] using this

/-- Witness for `C5_polling_bound`: a job whose status never leaves
`pending` times out after exactly 300 attempts. -/
theorem C5_polling_bound_witness :
    pollJobStatusRun (fun _ => JobStatus.pending) =
      ⟨300, .rejectedTimeout, true, some pollTimeoutMsg⟩ :=
  C5_polling_bound.2.2.2 (fun _ => JobStatus.pending) (fun _ _ _ => rfl)

/-- Truthiness of a present, nonempty transcript/key field. -/
theorem jsTruthyO_some {t : String} (h : t ≠ "") : jsTruthyO (some t) = true := by
  simp [jsTruthyO, h]

/-- A nonempty thrown message is surfaced verbatim by `error.message || d`. -/
theorem jsOrMsg_some {e : String} (h : e ≠ "") (d : String) :
    jsOrMsg (some e) d = e := by
  simp [jsOrMsg, h]

/-- C4.  On all four transcript endpoints: a request without a transcript is
answered 400 "No transcript provided" and the provider is never called; and
when the provider call throws, the handler answers 500 with the thrown
error's message verbatim (or the endpoint's fixed fallback message when the
error has no message), after exactly one provider call — no retry. -/
theorem C4_error_surfacing :
    (∀ (k : Option String) (p : Provider),
        processHandler none k p = (errNoTranscript, []) ∧
        segmentHandler none k p = (errNoTranscript, []) ∧
        verifySpeakersHandler none k p = (errNoTranscript, []) ∧
        checkCompanyNamesHandler none k p = (errNoTranscript, [])) ∧
    (∀ (t k e : String), t ≠ "" → k ≠ "" → e ≠ "" →
        processHandler (some t) (some k) (fun _ => .thrown (some e)) =
          (⟨500, [("error", .s e)]⟩, [processMessages t]) ∧
        segmentHandler (some t) (some k) (fun _ => .thrown (some e)) =
          (⟨500, [("error", .s e)]⟩, [segmentMessages t]) ∧
        verifySpeakersHandler (some t) (some k) (fun _ => .thrown (some e)) =
          (⟨500, [("error", .s e)]⟩,
           [verifyMessages (preprocessMissingLabels t).1]) ∧
        checkCompanyNamesHandler (some t) (some k) (fun _ => .thrown (some e)) =
          (⟨500, [("error", .s e)]⟩, [checkCompanyMessages t])) ∧
    (∀ (t k : String), t ≠ "" → k ≠ "" →
        processHandler (some t) (some k) (fun _ => .thrown none) =
          (⟨500, [("error", .s "Failed to process transcript")]⟩,
           [processMessages t]) ∧
        segmentHandler (some t) (some k) (fun _ => .thrown none) =
          (⟨500, [("error", .s "Failed to segment transcript")]⟩,
           [segmentMessages t]) ∧
        verifySpeakersHandler (some t) (some k) (fun _ => .thrown none) =
          (⟨500, [("error", .s "Failed to verify speakers")]⟩,
           [verifyMessages (preprocessMissingLabels t).1]) ∧
        checkCompanyNamesHandler (some t) (some k) (fun _ => .thrown none) =
          (⟨500, [("error", .s "Failed to check company names")]⟩,
           [checkCompanyMessages t])) := by
  refine ⟨fun k p => ⟨rfl, rfl, rfl, rfl⟩, ?_, ?_⟩
  · intro t k e ht hk he
    refine ⟨?_, ?_, ?_, ?_⟩ <;>
      simp only [processHandler, segmentHandler, verifySpeakersHandler,
        checkCompanyNamesHandler, jsTruthyO_some ht, jsTruthyO_some hk,
        jsOrEmpty, jsOrMsg_some he, Bool.not_true, Bool.false_eq_true,
        if_false]
  · intro t k ht hk
    refine ⟨?_, ?_, ?_, ?_⟩ <;>
      simp only [processHandler, segmentHandler, verifySpeakersHandler,
        checkCompanyNamesHandler, jsTruthyO_some ht, jsTruthyO_some hk,
        jsOrEmpty, jsOrMsg, Bool.not_true, Bool.false_eq_true, if_false]

/-- Witness for `C4_error_surfacing`: a thrown provider error with message
`"boom"` on `/api/process` is surfaced verbatim after one provider call. -/
theorem C4_error_surfacing_witness :
    processHandler (some "t") (some "k") (fun _ => .thrown (some "boom")) =
      (⟨500, [("error", .s "boom")]⟩, [processMessages "t"]) :=
  (C4_error_surfacing.2.1 "t" "k" "boom" (by decide) (by decide)
    (by decide)).1

/-- C8.  Every successful response of the four transcript endpoints carries
`success: true` and a `tokens_used` field equal to the `total_tokens` count
reported by the provider, or `0` when the provider reports no usage; the
count is forwarded unmodified. -/
theorem C8_tokens_forwarded :
    ∀ (t k : String) (c : Completion), t ≠ "" → k ≠ "" →
      (getField (processHandler (some t) (some k) (fun _ => .ok c)).1
          "success" = some (.b true) ∧
       getField (processHandler (some t) (some k) (fun _ => .ok c)).1
          "tokens_used" =
         some (.n (match c.usage with | some n => n | none => 0))) ∧
      (getField (segmentHandler (some t) (some k) (fun _ => .ok c)).1
          "success" = some (.b true) ∧
       getField (segmentHandler (some t) (some k) (fun _ => .ok c)).1
          "tokens_used" =
         some (.n (match c.usage with | some n => n | none => 0))) ∧
      (getField (verifySpeakersHandler (some t) (some k) (fun _ => .ok c)).1
          "success" = some (.b true) ∧
       getField (verifySpeakersHandler (some t) (some k) (fun _ => .ok c)).1
          "tokens_used" =
         some (.n (match c.usage with | some n => n | none => 0))) ∧
      (getField (checkCompanyNamesHandler (some t) (some k) (fun _ => .ok c)).1
          "success" = some (.b true) ∧
       getField (checkCompanyNamesHandler (some t) (some k) (fun _ => .ok c)).1
          "tokens_used" =
         some (.n (match c.usage with | some n => n | none => 0))) := by
  intro t k c ht hk
  rcases hc : c.usage with _ | n <;>
    refine ⟨⟨?_, ?_⟩, ⟨?_, ?_⟩, ⟨?_, ?_⟩, ⟨?_, ?_⟩⟩ <;>
      simp only [processHandler, segmentHandler, verifySpeakersHandler,
        checkCompanyNamesHandler, jsTruthyO_some ht, jsTruthyO_some hk, hc,
        jsUsage, Bool.not_true, Bool.false_eq_true, if_false] <;>
      first
        | (split <;> rfl)
        | rfl

/-- Witness for `C8_tokens_forwarded`: a provider completion reporting
7 total tokens is forwarded as `tokens_used = 7` with `success: true`. -/
theorem C8_tokens_forwarded_witness :
    getField (processHandler (some "t") (some "k")
        (fun _ => .ok ⟨some "out", some 7⟩)).1 "success" = some (.b true) ∧
    getField (processHandler (some "t") (some "k")
        (fun _ => .ok ⟨some "out", some 7⟩)).1 "tokens_used" =
      some (.n 7) :=
  (C8_tokens_forwarded "t" "k" ⟨some "out", some 7⟩ (by decide) (by decide)).1

/-- A scan that finds no `**text**` occurrence rewrites nothing. -/
theorem convertBoldFuel_no_match :
    ∀ (fuel : Nat) (s : List Char), hasBoldFuel fuel s = false →
      convertBoldFuel fuel s = s := by
  intro fuel
  induction fuel with
  | zero => intro s _; rfl
  | succ fuel ih =>
      intro s h
      match s with
      | [] => rfl
      | [c] => rfl
      | c1 :: c2 :: rest =>
          simp only [hasBoldFuel] at h
          simp only [convertBoldFuel]
          rcases hb : c1 == '*' && c2 == '*' with _ | _
          · simp only [hb, Bool.false_eq_true, if_false] at h ⊢
            rw [ih _ h]
          · simp only [hb, if_true] at h ⊢
            rcases hc : (rest.takeWhile fun c => !(c == '*')).isEmpty with _ | _
            · simp only [hc, Bool.false_eq_true, if_false] at h ⊢
              rcases hp : hasPfxL "**".data (rest.drop
                  (rest.takeWhile fun c => !(c == '*')).length) with _ | _
              · simp only [hp, Bool.false_eq_true, if_false] at h ⊢
                have hcc := hb
                rw [Bool.and_eq_true, beq_iff_eq, beq_iff_eq] at hcc
                rw [ih _ h, hcc.1, hcc.2]
              · simp only [hp, if_true] at h
                exact Bool.noConfusion h
            · simp only [hc, if_true] at h ⊢
              have hcc := hb
              rw [Bool.and_eq_true, beq_iff_eq, beq_iff_eq] at hcc
              rw [ih _ h, hcc.1, hcc.2]

/-- Embedded `convertBold` rewrites nothing when the text has no
`**text**` occurrence. -/
theorem convertBold_no_match {s : List Char} (h : hasBoldMatch s = false) :
    convertBold s = s :=
  convertBoldFuel_no_match s.length s h

/-- C2.  On `/api/process`, the success response's `cleaned_transcript`
is the model response with the leading ```` ```html ```` fence (or a
leading plain ```` ``` ```` fence) removed, a trailing ```` ``` ```` fence
removed, the result trimmed, and every `**text**` occurrence rewritten to
`<strong>text</strong>`; a response exhibiting none of those patterns comes
back unchanged apart from trimming. -/
theorem C2_process_postprocessing :
    ∀ (t k r : String) (u : Option Nat), t ≠ "" → k ≠ "" →
      (getField (processHandler (some t) (some k)
          (fun _ => .ok ⟨some r, u⟩)).1 "cleaned_transcript" =
        some (.s ⟨convertBold (jsTrimL (stripTrailingFence (stripLeadingFence
          (stripLeadingHtmlFence r.data))))⟩)) ∧
      (ciHasPfxL "```html".data r.data = false →
       hasPfxL "```".data r.data = false →
       hasPfxL "```".data r.data.reverse = false →
       hasBoldMatch (jsTrimL r.data) = false →
       getField (processHandler (some t) (some k)
           (fun _ => .ok ⟨some r, u⟩)).1 "cleaned_transcript" =
         some (.s ⟨jsTrimL r.data⟩)) := by
  intro t k r u ht hk
  have hA : getField (processHandler (some t) (some k)
      (fun _ => .ok ⟨some r, u⟩)).1 "cleaned_transcript" =
      some (.s ⟨convertBold (jsTrimL (stripTrailingFence (stripLeadingFence
        (stripLeadingHtmlFence r.data))))⟩) := by
    simp only [processHandler, jsTruthyO_some ht, jsTruthyO_some hk,
      Bool.not_true, Bool.false_eq_true, if_false, jsOrEmpty, stripFences]
    rfl
  refine ⟨hA, fun h1 h2 h3 h4 => ?_⟩
  rw [hA]
  rw [stripLeadingHtmlFence, if_neg (by simp [h1]),
      stripLeadingFence, if_neg (by simp [h2]),
      stripTrailingFence, if_neg (by simp [h3]),
      convertBold_no_match h4]

/-- Witness for `C2_process_postprocessing` on a fenced, bold-marked model
response and on a plain response. -/
theorem C2_process_postprocessing_witness :
    (getField (processHandler (some "t") (some "k")
        (fun _ => .ok ⟨some "```html\n**Hi** there\n```", none⟩)).1
        "cleaned_transcript" =
      some (.s ⟨convertBold (jsTrimL (stripTrailingFence (stripLeadingFence
        (stripLeadingHtmlFence "```html\n**Hi** there\n```".data))))⟩)) ∧
    (getField (processHandler (some "t") (some "k")
        (fun _ => .ok ⟨some " plain text ", none⟩)).1 "cleaned_transcript" =
      some (.s ⟨jsTrimL " plain text ".data⟩)) :=
  ⟨(C2_process_postprocessing "t" "k" "```html\n**Hi** there\n```" none
      (by decide) (by decide)).1,
   (C2_process_postprocessing "t" "k" " plain text " none
      (by decide) (by decide)).2 (by decide) (by decide) (by decide)
      (by decide)⟩

/-- One unfolding of `jsSplitL` when the separator occurs. -/
theorem jsSplitL_cons (sep s : List Char) (hsep : sep.isEmpty = false)
    (hocc : jsIncludesL sep s = true) :
    jsSplitL sep s =
      beforeFirstL sep s :: jsSplitFuel s.length sep (afterFirstL sep s) := by
  unfold jsSplitL
  simp only [jsSplitFuel, hocc, hsep, Bool.not_false, Bool.and_self,
    if_true]

/-- JavaScript `parts[0]`: the text before the first separator. -/
theorem jsSplitL_headD (sep s : List Char) (hsep : sep.isEmpty = false)
    (hocc : jsIncludesL sep s = true) :
    (jsSplitL sep s).headD [] = beforeFirstL sep s := by
  rw [jsSplitL_cons sep s hsep hocc]; rfl

/-- JavaScript `parts[1]`: the text after the first separator, truncated at
the next occurrence of the separator when there is one. -/
theorem jsSplitL_getD1 (sep s : List Char) (hsep : sep.isEmpty = false)
    (hocc : jsIncludesL sep s = true) :
    (jsSplitL sep s).getD 1 [] =
      (if jsIncludesL sep (afterFirstL sep s) then
        beforeFirstL sep (afterFirstL sep s)
      else afterFirstL sep s) := by
  rw [jsSplitL_cons sep s hsep hocc]
  cases s with
  | nil =>
      exfalso
      cases sep with
      | nil => exact Bool.noConfusion hsep
      | cons c cs => exact Bool.noConfusion (hocc.symm.trans rfl)
  | cons a s' =>
      simp only [List.length_cons, jsSplitFuel, hsep, Bool.not_false,
        Bool.and_true]
      rcases h2 : jsIncludesL sep (afterFirstL sep (a :: s')) with _ | _ <;>
        simp [h2]

/-- C3 counterexample.  On a model response containing the
`---CHANGES---` marker twice, the `changes_summary` holds only the text
between the first and the second marker (here `"A"`), not the full trimmed
text after the first marker (`"A---CHANGES---B"`): JavaScript's
`split(...)[1]` stops at the next occurrence. -/
theorem C3_changes_after_marker_counterexample :
    getField (verifySpeakersHandler (some "x") (some "k")
        (fun _ => .ok ⟨some "T---CHANGES---A---CHANGES---B", some 7⟩)).1
        "changes_summary" = some (.s "A") ∧
    (preprocessMissingLabels "x").2 = [] ∧
    jsTrimL (afterFirstL changesMarker.data
        (stripFences "T---CHANGES---A---CHANGES---B".data)) =
      "A---CHANGES---B".data ∧
    jsIncludesL "A---CHANGES---B".data "A".data = false := by
  refine ⟨?_, ?_, ?_, ?_⟩ <;> decide

/-- C3 (amended).  For every model response processed by
`/api/verify-speakers`: when the fence-stripped response contains the
`---CHANGES---` marker, the success response carries as
`verified_transcript` the trimmed text before the first marker with a
leading `[Corrected transcript]` placeholder removed, and as
`changes_summary` the trimmed text between the first marker and the next
occurrence of the marker (the whole remainder when the marker occurs only
once), prefixed by the preprocessor's changes joined with `"; "` when any
were made — unless that text is empty or equals `"No errors found"` or
`"No speaker attribution errors found."`, in which case the summary is the
joined preprocessor changes, or a fixed no-errors message when there are
none; when the marker is absent the whole stripped response is returned as
the transcript. -/
theorem C3_split_amended :
    ∀ (t k r : String) (u : Option Nat), t ≠ "" → k ≠ "" →
      (jsIncludesL changesMarker.data (stripFences r.data) = true →
        (verifySpeakersHandler (some t) (some k)
            (fun _ => .ok ⟨some r, u⟩)).1 =
          ⟨200,
           [("success", .b true),
            ("verified_transcript", .s ⟨stripCorrectedPlaceholder (jsTrimL
              (beforeFirstL changesMarker.data (stripFences r.data)))⟩),
            ("tokens_used", .n (jsUsage u)),
            ("changes_summary", .s
              (if !(jsTrimL (if jsIncludesL changesMarker.data
                      (afterFirstL changesMarker.data (stripFences r.data))
                    then beforeFirstL changesMarker.data
                      (afterFirstL changesMarker.data (stripFences r.data))
                    else afterFirstL changesMarker.data
                      (stripFences r.data))).isEmpty &&
                  (⟨jsTrimL (if jsIncludesL changesMarker.data
                      (afterFirstL changesMarker.data (stripFences r.data))
                    then beforeFirstL changesMarker.data
                      (afterFirstL changesMarker.data (stripFences r.data))
                    else afterFirstL changesMarker.data
                      (stripFences r.data))⟩ : String) !=
                    "No speaker attribution errors found." &&
                  (⟨jsTrimL (if jsIncludesL changesMarker.data
                      (afterFirstL changesMarker.data (stripFences r.data))
                    then beforeFirstL changesMarker.data
                      (afterFirstL changesMarker.data (stripFences r.data))
                    else afterFirstL changesMarker.data
                      (stripFences r.data))⟩ : String) != "No errors found"
               then
                 if !(preprocessMissingLabels t).2.isEmpty then
                   String.intercalate "; " (preprocessMissingLabels t).2 ++
                     "; " ++
                     ⟨jsTrimL (if jsIncludesL changesMarker.data
                        (afterFirstL changesMarker.data (stripFences r.data))
                      then beforeFirstL changesMarker.data
                        (afterFirstL changesMarker.data (stripFences r.data))
                      else afterFirstL changesMarker.data
                        (stripFences r.data))⟩
                 else
                   ⟨jsTrimL (if jsIncludesL changesMarker.data
                      (afterFirstL changesMarker.data (stripFences r.data))
                    then beforeFirstL changesMarker.data
                      (afterFirstL changesMarker.data (stripFences r.data))
                    else afterFirstL changesMarker.data
                      (stripFences r.data))⟩
               else
                 if !(preprocessMissingLabels t).2.isEmpty then
                   String.intercalate "; " (preprocessMissingLabels t).2
                 else "No speaker attribution errors found"))]⟩) ∧
      (jsIncludesL changesMarker.data (stripFences r.data) = false →
        (verifySpeakersHandler (some t) (some k)
            (fun _ => .ok ⟨some r, u⟩)).1 =
          ⟨200,
           [("success", .b true),
            ("verified_transcript", .s ⟨stripFences r.data⟩),
            ("tokens_used", .n (jsUsage u)),
            ("changes_summary", .s
              (if !(preprocessMissingLabels t).2.isEmpty then
                String.intercalate "; " (preprocessMissingLabels t).2
              else "Verified speaker attributions and corrected any misplaced labels"))]⟩) := by
  intro t k r u ht hk
  have hsep : changesMarker.data.isEmpty = false := rfl
  constructor
  · intro hm
    simp only [verifySpeakersHandler, jsTruthyO_some ht, jsTruthyO_some hk,
      Bool.not_true, Bool.false_eq_true, if_false, jsOrEmpty, hm, if_true,
      jsSplitL_headD changesMarker.data (stripFences r.data) hsep hm,
      jsSplitL_getD1 changesMarker.data (stripFences r.data) hsep hm]
  · intro hm
    simp only [verifySpeakersHandler, jsTruthyO_some ht, jsTruthyO_some hk,
      Bool.not_true, Bool.false_eq_true, if_false, jsOrEmpty, hm]

/-- Witness for `C3_split_amended` on a single-marker response and on a
marker-free response. -/
theorem C3_split_amended_witness :
    (verifySpeakersHandler (some "x") (some "k")
        (fun _ => .ok ⟨some "Good text---CHANGES---Fixed a label", some 3⟩)).1 =
      ⟨200,
       [("success", .b true),
        ("verified_transcript", .s ⟨stripCorrectedPlaceholder (jsTrimL
          (beforeFirstL changesMarker.data
            (stripFences "Good text---CHANGES---Fixed a label".data)))⟩),
        ("tokens_used", .n (jsUsage (some 3))),
        ("changes_summary", .s
          (if !(jsTrimL (if jsIncludesL changesMarker.data
                  (afterFirstL changesMarker.data
                    (stripFences "Good text---CHANGES---Fixed a label".data))
                then beforeFirstL changesMarker.data
                  (afterFirstL changesMarker.data
                    (stripFences "Good text---CHANGES---Fixed a label".data))
                else afterFirstL changesMarker.data
                  (stripFences "Good text---CHANGES---Fixed a label".data))).isEmpty &&
              (⟨jsTrimL (if jsIncludesL changesMarker.data
                  (afterFirstL changesMarker.data
                    (stripFences "Good text---CHANGES---Fixed a label".data))
                then beforeFirstL changesMarker.data
                  (afterFirstL changesMarker.data
                    (stripFences "Good text---CHANGES---Fixed a label".data))
                else afterFirstL changesMarker.data
                  (stripFences "Good text---CHANGES---Fixed a label".data))⟩ : String) !=
                "No speaker attribution errors found." &&
              (⟨jsTrimL (if jsIncludesL changesMarker.data
                  (afterFirstL changesMarker.data
                    (stripFences "Good text---CHANGES---Fixed a label".data))
                then beforeFirstL changesMarker.data
                  (afterFirstL changesMarker.data
                    (stripFences "Good text---CHANGES---Fixed a label".data))
                else afterFirstL changesMarker.data
                  (stripFences "Good text---CHANGES---Fixed a label".data))⟩ : String) !=
                "No errors found"
           then
             if !(preprocessMissingLabels "x").2.isEmpty then
               String.intercalate "; " (preprocessMissingLabels "x").2 ++
                 "; " ++
                 ⟨jsTrimL (if jsIncludesL changesMarker.data
                    (afterFirstL changesMarker.data
                      (stripFences "Good text---CHANGES---Fixed a label".data))
                  then beforeFirstL changesMarker.data
                    (afterFirstL changesMarker.data
                      (stripFences "Good text---CHANGES---Fixed a label".data))
                  else afterFirstL changesMarker.data
                    (stripFences "Good text---CHANGES---Fixed a label".data))⟩
             else
               ⟨jsTrimL (if jsIncludesL changesMarker.data
                  (afterFirstL changesMarker.data
                    (stripFences "Good text---CHANGES---Fixed a label".data))
                then beforeFirstL changesMarker.data
                  (afterFirstL changesMarker.data
                    (stripFences "Good text---CHANGES---Fixed a label".data))
                else afterFirstL changesMarker.data
                  (stripFences "Good text---CHANGES---Fixed a label".data))⟩
           else
             if !(preprocessMissingLabels "x").2.isEmpty then
               String.intercalate "; " (preprocessMissingLabels "x").2
             else "No speaker attribution errors found"))]⟩ :=
  (C3_split_amended "x" "k" "Good text---CHANGES---Fixed a label" (some 3)
    (by decide) (by decide)).1 (by decide)

/-- C6 counterexample.  The "Add Disclaimers" click handler issues no API
request at all: on the transcript `"hello"` with disclaimers not yet added
it performs zero fetches and rewrites the text locally by concatenating the
two fixed disclaimer strings around it. -/
theorem C6_disclaimer_no_api_call :
    (addDisclaimersPass "hello" false).1 = [] ∧
    (addDisclaimersPass "hello" false).2.1 =
      topDisclaimerHTML ++ "hello" ++ bottomDisclaimerHTML := by
  constructor <;> rfl

/-- C6 (amended).  The speaker-label normalization, paragraph segmentation
and speaker-attribution verification passes are each a single API call to a
distinct endpoint whose system prompts are pairwise distinct; the
disclaimer-insertion pass, however, is implemented locally in the browser:
it issues no API call and surrounds the transcript with the two fixed
disclaimer strings. -/
theorem C6_passes_amended :
    (∀ t : String, processPassRequests t = [⟨"POST", "/api/process", t⟩]) ∧
    (∀ t : String, segmentPassRequests t = [⟨"POST", "/api/segment", t⟩]) ∧
    (∀ t : String,
      verifySpeakersPassRequests t = [⟨"POST", "/api/verify-speakers", t⟩]) ∧
    processSystemPrompt ≠ segmentSystemPrompt ∧
    processSystemPrompt ≠ verifySystemPrompt ∧
    segmentSystemPrompt ≠ verifySystemPrompt ∧
    (∀ (t : String) (h : Bool), (addDisclaimersPass t h).1 = []) ∧
    (∀ t : String, t ≠ "" →
      addDisclaimersPass t false =
        ([], topDisclaimerHTML ++ t ++ bottomDisclaimerHTML, true)) := by
  refine ⟨fun t => rfl, fun t => rfl, fun t => rfl, by decide, by decide,
    by decide, ?_, ?_⟩
  · intro t h
    unfold addDisclaimersPass
    split
    · rfl
    · split <;> rfl
  · intro t h
    unfold addDisclaimersPass
    rw [if_neg (by simpa using h), if_neg (by simp)]

/-- Witness for `C6_passes_amended`: the disclaimer pass on `"hello"`. -/
theorem C6_passes_amended_witness :
    addDisclaimersPass "hello" false =
      ([], topDisclaimerHTML ++ "hello" ++ bottomDisclaimerHTML, true) :=
  C6_passes_amended.2.2.2.2.2.2.2 "hello" (by decide)

/-- C7.  The theorem records the client/server mismatch: the server
registers no `/api/process/:jobId/status` route (so the polling URL the
client builds matches nothing), and the success response of `/api/process`
carries exactly `success`, `cleaned_transcript` and `tokens_used` — no
`job_id` and no `total_chunks` — while the client's click handler reads
`job_id` and `total_chunks` before polling. -/
theorem C7_no_job_endpoint :
    routeExists "GET" (jobStatusPath "abc123") = false ∧
    routeExists "POST" (jobStatusPath "abc123") = false ∧
    ((processHandler (some "Hello") (some "k")
        (fun _ => .ok ⟨some "Cleaned transcript", some 5⟩)).1.body.map
          Prod.fst =
      ["success", "cleaned_transcript", "tokens_used"]) ∧
    getField (processHandler (some "Hello") (some "k")
        (fun _ => .ok ⟨some "Cleaned transcript", some 5⟩)).1 "job_id" =
      none ∧
    getField (processHandler (some "Hello") (some "k")
        (fun _ => .ok ⟨some "Cleaned transcript", some 5⟩)).1
        "total_chunks" = none ∧
    processClickReads = ["job_id", "total_chunks"] := by
  refine ⟨?_, ?_, ?_, ?_, ?_, ?_⟩ <;> decide

/-- C1.  For every transcript sent to `/api/verify-speakers`:
the handler makes exactly one provider call, whose user prompt carries the
`preprocessMissingLabels`-preprocessed transcript (so the regex
preprocessor runs before the external model call); every label insertion
recorded by the executive hand-off loop comes from a match whose trimmed
following text is nonempty and does not already begin with a `<strong>`
label or an all-caps `NAME()` label, carries the trimmed captured name, a
parenthesised title exactly when the title regex (CEO, CFO, Chief Executive
Officer, Chief Financial Officer, President, Chairman, founder) finds a
word in the operator's text, and inserts the label
`\n<strong>Name</strong>(title)\n\n`; and every analyst insertion likewise
passes the label guard and inserts `\n<strong>Company Analyst</strong>\n\n`. -/
theorem C1_verify_preprocessor :
    (∀ (t k : String) (p : Provider), t ≠ "" → k ≠ "" →
      (verifySpeakersHandler (some t) (some k) p).2 =
        [verifyMessages (preprocessMissingLabels t).1]) ∧
    (∀ (s : List Char), ∀ e ∈ handoffEntries s,
      ∃ r ∈ handoffRawMatches s,
        (jsTrimL r.g4).isEmpty = false ∧
        beginsWithSpeakerLabel (jsTrimL r.g4) = false ∧
        e.name = jsTrimL r.g3 ∧
        e.title = (match titleSearch r.g2 with
          | some w => " (".data ++ w ++ ")".data
          | none => []) ∧
        e.insertPos = r.index + r.len - (jsTrimL r.g4).length ∧
        execLabel e = "\n<strong>".data ++ jsTrimL (collapseWs e.name) ++
          "</strong>".data ++ e.title ++ "\n\n".data) ∧
    (∀ (s : List Char), ∀ a ∈ analystEntries s,
      ∃ r ∈ analystRawMatches s,
        (jsTrimL r.g4).isEmpty = false ∧
        beginsWithSpeakerLabel (jsTrimL r.g4) = false ∧
        a.company = jsTrimL r.g3 ∧
        a.insertPos = r.index + r.len - (jsTrimL r.g4).length ∧
        anaLabel a = "\n<strong>".data ++ a.company ++
          " Analyst</strong>".data ++ "\n\n".data) := by
  refine ⟨?_, ?_, ?_⟩
  · intro t k p ht hk
    simp only [verifySpeakersHandler, jsTruthyO_some ht, jsTruthyO_some hk,
      Bool.not_true, Bool.false_eq_true, if_false, jsOrEmpty]
    rcases hp : p (verifyMessages (preprocessMissingLabels t).1) with c | m
    · simp only [hp]
      split <;> rfl
    · simp only [hp]
  · intro s e he
    rw [handoffEntries, List.mem_filterMap] at he
    obtain ⟨r, hr, hmk⟩ := he
    refine ⟨r, hr, ?_⟩
    simp only [mkExecEntry] at hmk
    split at hmk
    · rename_i hcond
      rw [Bool.and_eq_true, Bool.not_eq_true', Bool.not_eq_true'] at hcond
      obtain ⟨h1, h2⟩ := hcond
      obtain rfl := Option.some.inj hmk
      exact ⟨h1, h2, rfl, rfl, rfl, rfl⟩
    · exact Option.noConfusion hmk
  · intro s a ha
    rw [analystEntries, List.mem_filterMap] at ha
    obtain ⟨r, hr, hmk⟩ := ha
    refine ⟨r, hr, ?_⟩
    simp only [mkAnaEntry] at hmk
    split at hmk
    · rename_i hcond
      rw [Bool.and_eq_true, Bool.not_eq_true', Bool.not_eq_true'] at hcond
      obtain ⟨h1, h2⟩ := hcond
      obtain rfl := Option.some.inj hmk
      exact ⟨h1, h2, rfl, rfl, rfl⟩
    · exact Option.noConfusion hmk

/-- Witness for `C1_verify_preprocessor`: the one provider call on the
transcript `"x"`; an executive hand-off insertion (with extracted CEO
title) on an operator introduction of Bob; and an analyst insertion on an
operator introduction of Jane Doe with Barclays. -/
theorem C1_verify_preprocessor_witness :
    ((verifySpeakersHandler (some "x") (some "k")
        (fun _ => .ok ⟨some "ok", none⟩)).2 =
      [verifyMessages (preprocessMissingLabels "x").1]) ∧
    (∃ r ∈ handoffRawMatches
        "Operator\n\nOur CEO will join. I will turn the call over to Bob. Please go ahead.\n\nWelcome.".data,
      (jsTrimL r.g4).isEmpty = false ∧
      beginsWithSpeakerLabel (jsTrimL r.g4) = false ∧
      "Bob".data = jsTrimL r.g3 ∧
      " (CEO)".data = (match titleSearch r.g2 with
        | some w => " (".data ++ w ++ ")".data
        | none => []) ∧
      81 = r.index + r.len - (jsTrimL r.g4).length ∧
      execLabel ⟨0, "Bob".data, " (CEO)".data, 81⟩ =
        "\n<strong>".data ++ jsTrimL (collapseWs "Bob".data) ++
          "</strong>".data ++ " (CEO)".data ++ "\n\n".data) ∧
    (∃ r ∈ analystRawMatches
        "Operator\n\nOur next question is from Jane Doe with Barclays. Please proceed.\n\nGreat, thanks.\n\n<strong>X</strong>\nok".data,
      (jsTrimL r.g4).isEmpty = false ∧
      beginsWithSpeakerLabel (jsTrimL r.g4) = false ∧
      "Barclays".data = jsTrimL r.g3 ∧
      77 = r.index + r.len - (jsTrimL r.g4).length ∧
      anaLabel ⟨"Barclays".data, 77⟩ =
        "\n<strong>".data ++ "Barclays".data ++ " Analyst</strong>".data ++
          "\n\n".data) :=
  ⟨C1_verify_preprocessor.1 "x" "k" (fun _ => .ok ⟨some "ok", none⟩)
      (by decide) (by decide),
   C1_verify_preprocessor.2.1
      "Operator\n\nOur CEO will join. I will turn the call over to Bob. Please go ahead.\n\nWelcome.".data
      ⟨0, "Bob".data, " (CEO)".data, 81⟩ (by decide),
   C1_verify_preprocessor.2.2
      "Operator\n\nOur next question is from Jane Doe with Barclays. Please proceed.\n\nGreat, thanks.\n\n<strong>X</strong>\nok".data
      ⟨"Barclays".data, 77⟩ (by decide)⟩

end TranscriptsProject
